import Mathlib

/-!
Verification of `pyog/dit.py` (Python client for the Lenel OnGuard
DataConduIT WMI API) against its natural-language specification.

The Python source is shallowly embedded below.  Pure computations
(string parsing, status decoding, error construction) become Lean
functions on `List Char` / `Nat` / `Int`; the remote WMI store and the
COM calls become explicit state passing plus a trace of remote
operations; fallible Python code (raising exceptions) returns
`Except`-style values.  The helper library `pyog._wmii` (a modified
copy of the Python `wmi` package) is part of the package but its file
is not in the sources; the few behaviours of it that matter are
modelled from the comments and docstrings in `dit.py` itself, and each
such definition is marked `Modelled from the spec`.
-/

namespace Pyog

/-! ## Python string primitives, embedded character-wise -/

/-- Index of the first occurrence of `pat` in `l` (Python `str.index`):
`some i` when `pat` occurs first at position `i`, `none` otherwise. -/
def subIdx (pat : List Char) : List Char → Option Nat
  | [] => if pat = [] then some 0 else none
  | c :: cs =>
    if pat.isPrefixOf (c :: cs) then some 0
    else (subIdx pat cs).map (· + 1)

/-- Python `str.lower()` (ASCII, character-wise). -/
def lowerStr (s : String) : String := ⟨s.data.map Char.toLower⟩

/-- Python `str.upper()` (ASCII, character-wise). -/
def upperStr (s : String) : String := ⟨s.data.map Char.toUpper⟩

/-- Python `str.strip()`: drop whitespace from both ends. -/
def trimChars (cs : List Char) : List Char :=
  ((cs.dropWhile Char.isWhitespace).reverse.dropWhile Char.isWhitespace).reverse

/-- Python `str.split(',')`: split at every comma; `n` commas give
`n + 1` pieces. -/
def splitCommaC : List Char → List (List Char)
  | [] => [[]]
  | c :: cs =>
    match splitCommaC cs with
    | [] => [[]]
    | g :: gs => if c = ',' then [] :: g :: gs else (c :: g) :: gs

/-- Python `int()` on a non-empty string of decimal digits. -/
def digitsToNat (cs : List Char) : Nat :=
  cs.foldl (fun a c => 10 * a + (c.toNat - 48)) 0

/-- The literal searched for by `DITError._stat_code_re`
(regex `(?<=StatusCode = )\d+`). -/
def statPat : List Char := "StatusCode = ".data

/-- Python `re.search(r"(?<=StatusCode = )\d+", text)` followed by
`int(...)`: the first maximal run of digits directly preceded by
`"StatusCode = "`; `none` when the regex does not match. -/
def findStatusCode : List Char → Option Nat
  | [] => none
  | c :: cs =>
    if statPat.isPrefixOf (c :: cs) then
      let ds := ((c :: cs).drop statPat.length).takeWhile Char.isDigit
      if ds = [] then findStatusCode cs else some (digitsToNat ds)
    else findStatusCode cs

/-- Python `hex()` on a non-negative integer. -/
def hexStr (n : Nat) : String := "0x" ++ ⟨Nat.toDigits 16 n⟩

/-- Modelled from the spec: `pyog._wmii.signed_to_unsigned` is in the
`pyog` package but its file is not among the sources; it reinterprets a
signed 32-bit HRESULT as the corresponding unsigned 32-bit value, i.e.
reduction modulo `2 ^ 32`. -/
def signedToUnsigned (h : Int) : Nat := (h % (2 ^ 32 : Int)).toNat

/-! ## Status decoding tables (`region: Status` of `dit.py`)

An `OrderedDict` with distinct numeric keys is embedded as an
association list in insertion order. -/

abbrev StatusTable := List (Nat × String)

/-- Entries installed by `_DeviceStatus.__init__`. -/
def deviceStatusTable : StatusTable :=
  [(0x1, "ONLINE_STATUS"),
   (0x2, "OPTIONS_MISMATCH_STATUS"),
   (0x4, "CABINET_TAMPER"),
   (0x8, "POWER_FAIL")]

/-- `PANEL_STATUS = _PanelStatus()`: the device entries plus the
firmware entry appended by `_PanelStatus.__init__`. -/
def PANEL_STATUS : StatusTable :=
  deviceStatusTable ++ [(0x10, "DOWNLOADING_FIRMWARE")]

/-- `ALARM_PANEL_STATUS = _AlarmPanelStatus()`: inherits
`_DeviceStatus` unchanged. -/
def ALARM_PANEL_STATUS : StatusTable := deviceStatusTable

/-- `READER_STATUS = _ReaderStatus()` (values copied verbatim,
including the trailing blanks present in the source). -/
def READER_STATUS : StatusTable :=
  [(0x1, "RDRSTATUS_ONLINE"),
   (0x2, "RDRSTATUS_OPTION_MISTMATCH"),
   (0x4, "RDRSTATUS_CNTTAMPER"),
   (0x8, "RDRSTATUS_PWR_FAIL"),
   (0x10, "RDRSTATUS_TAMPER"),
   (0x20, "RDRSTATUS_FORCED"),
   (0x40, "RDRSTATUS_HELD "),
   (0x80, "RDRSTATUS_AUX "),
   (0x100, "RDRSTATUS_AUX2"),
   (0x400, "RDRSTATUS_AUX3"),
   (0x800, "RDRSTATUS_BIO_VERIFY"),
   (0x1000, "RDRSTATUS_DC_GND_FLT"),
   (0x2000, "RDRSTATUS_DC_SHRT_FLT"),
   (0x4000, "RDRSTATUS_DC_OPEN_FLT"),
   (0x8000, "RDRSTATUS_DC_GEN_FLT"),
   (0x10000, "RDRSTATUS_RX_GND_FLT"),
   (0x20000, "RDRSTATUS_RX_SHRT_FLT"),
   (0x40000, "RDRSTATUS_RX_OPEN_FLT"),
   (0x80000, "RDRSTATUS_RX_GEN_FLT"),
   (0x100000, "RDRSTATUS_FIRST_CARD_UNLOCK"),
   (0x200000, "RDRSTATUS_EXTENDED_HELD_MODE"),
   (0x400000, "RDRSTATUS_CIPHER_MODE"),
   (0x800000, "RDRSTATUS_LOW_BATTERY"),
   (0x1000000, "RDRSTATUS_MOTOR_STALLED"),
   (0x2000000, "RDRSTATUS_READHEAD_OFFLINE"),
   (0x4000000, "MRDT_ORDRSTATUS_MRDT_OFFLINEFFLINE"),
   (0x8000000, "RDRSTATUS_DOOR_CONTACT_OFFLINE")]

/-- `OUTPUT_STATUS = _OutputStatus()` (the second value carries a
trailing blank in the source). -/
def OUTPUT_STATUS : StatusTable :=
  [(0x0, "ALRM_STATUS_SECURE"), (0x1, "ALRM_STATUS_ACTIVE ")]

/-- `INPUT_STATUS = _InputStatus()`: the output entries plus the
fault/mask entries appended by `_InputStatus.__init__`. -/
def INPUT_STATUS : StatusTable :=
  OUTPUT_STATUS ++
  [(0x2, "ALRM_STATUS_GND_FLT"),
   (0x3, "ALRM_STATUS_SHRT_FLT"),
   (0x4, "ALRM_STATUS_OPEN_FLT"),
   (0x5, "ALRM_STATUS_GEN_FLT"),
   (0x100, "ALRM_STATUS_MASKED")]

/-- `HWStatus.decode`: Python
`[self[code] for code in self if code & status or code == 0]`.
The keys of every table in the module are distinct, so `self[code]`
is the value stored with that entry. -/
def hwDecode (t : StatusTable) (status : Nat) : List String :=
  (t.filter (fun p => (p.1 &&& status != 0) || (p.1 == 0))).map Prod.snd

/-- Python `dict` key lookup (`self[status]`): `none` models the
`KeyError` raised for absent keys. -/
def tableLookup (t : StatusTable) (k : Nat) : Option String :=
  (t.find? (fun p => p.1 == k)).map Prod.snd

/-- `_OutputStatus.decode` (inherited unchanged by `_InputStatus`):
Python `return [self[status]]`; `none` models the `KeyError`. -/
def exactDecode (t : StatusTable) (status : Nat) : Option (List String) :=
  (tableLookup t status).map (fun v => [v])

/-- Spec-side reading of the claim about `HWStatus.decode`: the table
entries, in insertion order, whose (non-zero) code is wholly contained
in the ORed status bitmask. -/
def specBitDecode (t : StatusTable) (status : Nat) : List String :=
  (t.filter (fun p => (p.1 != 0) && (p.1 &&& status == p.1))).map Prod.snd

/-- The `_status_cls` dispatch table of `dit.py`, in source order. -/
def statusCls : List (String × StatusTable) :=
  [("Lnl_Panel", PANEL_STATUS),
   ("Lnl_AlarmPanel", ALARM_PANEL_STATUS),
   ("Lnl_Reader", READER_STATUS),
   ("Lnl_AlarmInput", INPUT_STATUS),
   ("Lnl_AlarmOutput", OUTPUT_STATUS),
   ("Lnl_ReaderInput", INPUT_STATUS),
   ("Lnl_ReaderInput1", INPUT_STATUS),
   ("Lnl_ReaderInput2", INPUT_STATUS),
   ("Lnl_ReaderOutput", OUTPUT_STATUS),
   ("Lnl_ReaderOutput1", OUTPUT_STATUS),
   ("Lnl_ReaderOutput2", OUTPUT_STATUS)]

/-- Lookup in `_status_cls`. -/
def statusClsLookup (cls : String) : Option StatusTable :=
  (statusCls.find? (fun p => p.1 == cls)).map Prod.snd

/-! ## Wrapped COM/WMI errors (`COMError`, `DITError`, `handle_error`) -/

/-- The in-flight `pywintypes.com_error` as `COMError.__init__` reads
it: `hresult`, `strerror`, and (when present) the `excepinfo` fields it
uses, `excepinfo[1]` (source) and `excepinfo[2]` (description).
`none` models a falsy `excepinfo`. -/
structure PyComErr where
  hresult : Int
  strerror : String
  excepinfo : Option (String × String)
deriving DecidableEq

/-- The DataConduIT error object (`Lnl_Error` child) consumed by
`DITError.__init__`: its `Operation`, `ParameterInfo` and
`Description` properties and the text `GetObjectText_()` returns.
An empty string models a falsy property. -/
structure DitErrInfo where
  Operation : String
  ParameterInfo : String
  Description : String
  objectText : String
deriving DecidableEq

/-- The fields of a raised `COMError` / `DITError` that the
constructors assign (the `args` tuple is exactly
`(code, description, source, param_info)`). -/
structure COMErrorS where
  source : String
  description : String
  code : String
  param_info : String
deriving DecidableEq

/-- `COMError.__init__`: source/description from `excepinfo` when it is
truthy, otherwise empty source and `strerror` as description; the code
is the HRESULT reinterpreted unsigned, in hex. -/
def mkCOMError (e : PyComErr) : COMErrorS :=
  match e.excepinfo with
  | some sd =>
    { source := sd.1, description := sd.2,
      code := hexStr (signedToUnsigned e.hresult), param_info := "" }
  | none =>
    { source := "", description := e.strerror,
      code := hexStr (signedToUnsigned e.hresult), param_info := "" }

/-- `DITError.__init__`: starts from `COMError.__init__`, then
overrides source with `Operation` when truthy, always sets
`param_info` to `ParameterInfo`, overrides description with
`Description` when truthy, and replaces the code with the
`StatusCode` parsed from `GetObjectText_()` in hex; a failed regex
search raises `AttributeError`, which is swallowed and keeps the
COM-error code. -/
def mkDITError (info : DitErrInfo) (e : PyComErr) : COMErrorS :=
  let b0 := mkCOMError e
  let b1 := if info.Operation != "" then { b0 with source := info.Operation } else b0
  let b2 := { b1 with param_info := info.ParameterInfo }
  let b3 := if info.Description != "" then { b2 with description := info.Description } else b2
  match findStatusCode info.objectText.data with
  | some n => { b3 with code := hexStr n }
  | none => b3

/-- The exception raised by `handle_error`. -/
inductive PyRaised where
  | dit (e : COMErrorS)
  | com (e : COMErrorS)
deriving DecidableEq

/-- `handle_error`: asks DataConduIT for last-error information
(`dit_error_info()`, `none` when the `SWbemLastError` dispatch raised
`com_error`) and raises `DITError` when it is available, else a plain
`COMError`.  The function never returns normally: its result is the
exception raised. -/
def handle_error (info : Option DitErrInfo) (e : PyComErr) : PyRaised :=
  match info with
  | some i => .dit (mkDITError i e)
  | none => .com (mkCOMError e)

/-- Whether the raised exception is a `DITError`. -/
def isDitRaised : PyRaised → Bool
  | .dit _ => true
  | .com _ => false

/-- The `source` member of the raised exception. -/
def raisedSource : PyRaised → String
  | .dit c => c.source
  | .com c => c.source

/-- Concrete DataConduIT error info with a falsy `Operation`, used to
test the claim about `DITError`. -/
def cxInfo : DitErrInfo :=
  { Operation := "", ParameterInfo := "pinfo", Description := "descr",
    objectText := "instance of Lnl_Error {  StatusCode = 21; };" }

/-- Concrete in-flight `com_error` whose `excepinfo` names a source. -/
def cxCom : PyComErr :=
  { hresult := -2147217406, strerror := "call failed",
    excepinfo := some ("ProviderSrc", "ComDesc") }

/-! ## The write-back object model (`DITElement`)

The remote WMI store is a finite map from object paths to property
lists; every remote operation (a `Put_` write or a `Get` fetch) is
logged in a trace, so that the theorems can speak about when writes
reach the store. -/

abbrev Props := List (String × String)

/-- Assignment of one property on a WMI object (Python keeps the
property slot, here: replace the first binding or append). -/
def propSet : Props → String → String → Props
  | [], k, v => [(k, v)]
  | p :: ps, k, v => if p.1 == k then (k, v) :: ps else p :: propSet ps k v

/-- Setting several properties in order (`set(**kwargs)` staging). -/
def applyKwargs (ps : Props) (kwargs : Props) : Props :=
  kwargs.foldl (fun a p => propSet a p.1 p.2) ps

/-- The wrapped OLE object: its properties and its WMI path
(`Path_.Path`; the empty string is the falsy path of a freshly spawned
instance). -/
structure WmiObj where
  props : Props
  path : String
deriving DecidableEq

/-- A remote operation against the DataConduIT store. -/
inductive RemoteOp where
  | put (path : String) (props : Props)
  | get (path : String)
deriving DecidableEq

/-- State of one `DITElement` session: the remote store, the path the
remote will assign to the next newly created object, the local wrapped
object, and the trace of remote operations performed so far. -/
structure DitState where
  store : List (String × Props)
  fresh : String
  obj : WmiObj
  trace : List RemoteOp
deriving DecidableEq

/-- Write `ps` at path `p` in the remote store. -/
def storeSet : List (String × Props) → String → Props → List (String × Props)
  | [], p, ps => [(p, ps)]
  | q :: qs, p, ps => if q.1 == p then (p, ps) :: qs else q :: storeSet qs p ps

/-- Fetch the properties stored at path `p` (`namespace.Get`);
`none` models the raised error for a missing path. -/
def storeGet (st : List (String × Props)) (p : String) : Option Props :=
  (st.find? (fun q => q.1 == p)).map Prod.snd

/-- Modelled from the spec: `pyog._wmii._wmi_object.__setattr__` is in
the `pyog` package but its file is not among the sources; per the
comment in `DITElement.__setattr__` ("If path exists
`_wmii._wmi_object.__setattr__()` will call `SWbemObject.Put_()`"), it
sets the property locally and, when the object has a path, immediately
writes the object to the remote store. -/
def wmiSetattr (st : DitState) (k v : String) : DitState :=
  let o : WmiObj := { st.obj with props := propSet st.obj.props k v }
  if o.path != "" then
    { st with obj := o, store := storeSet st.store o.path o.props,
              trace := st.trace ++ [.put o.path o.props] }
  else
    { st with obj := o }

/-- Modelled from the spec: `pyog._wmii._wmi_object.set(**kwargs)` is
in the `pyog` package but its file is not among the sources; it stages
every named property locally and then, when the object has a path,
writes the object to the remote store once. -/
def wmiSet (st : DitState) (kwargs : Props) : DitState :=
  let o : WmiObj := { st.obj with props := applyKwargs st.obj.props kwargs }
  if o.path != "" then
    { st with obj := o, store := storeSet st.store o.path o.props,
              trace := st.trace ++ [.put o.path o.props] }
  else
    { st with obj := o }

/-- `self.Put_()` on a pathless object (the `else` branch of
`DITElement._commit`): the remote stores the local properties under a
newly assigned path and returns that path (`.Relpath`). -/
def wmiPutNew (st : DitState) : DitState × String :=
  ({ st with store := storeSet st.store st.fresh st.obj.props,
             trace := st.trace ++ [.put st.fresh st.obj.props] },
   st.fresh)

/-- Failure of a commit step (`handle_error` raising). -/
inductive CommitErr where
  | getFailed
deriving DecidableEq

/-- `DITElement.__refresh(obj_path)`: fetch a fresh instance from the
namespace at `obj_path` and replace the local members with it
(`self.__dict__.update(DITElement(self._namespace, ole_obj=new_obj).__dict__)`;
the wrapped OLE object, hence every property and the path, is
replaced wholesale). -/
def ditRefresh (st : DitState) (p : String) : DitState × Except CommitErr Unit :=
  let st1 := { st with trace := st.trace ++ [.get p] }
  match storeGet st1.store p with
  | none => (st1, .error .getFailed)
  | some ps => ({ st1 with obj := ⟨ps, p⟩ }, .ok ())

/-- `DITElement._commit`: when the object already has a path, only
refresh from it; otherwise `Put_` first and refresh from the returned
relative path. -/
def ditCommit (st : DitState) : DitState × Except CommitErr Unit :=
  if st.obj.path != "" then ditRefresh st st.obj.path
  else
    let pr := wmiPutNew st
    ditRefresh pr.1 pr.2

/-- `DITElement.__setattr__`: the inherited assignment followed by
`self._commit()`. -/
def elemSetattr (st : DitState) (k v : String) : DitState × Except CommitErr Unit :=
  ditCommit (wmiSetattr st k v)

/-- `DITElement.set(**kwargs)`: the inherited batch assignment
followed by `self._commit()`. -/
def elemSet (st : DitState) (kwargs : Props) : DitState × Except CommitErr Unit :=
  ditCommit (wmiSet st kwargs)

/-- Select the written properties of a `put` operation. -/
def putPropsOf : RemoteOp → Option Props
  | .put _ ps => some ps
  | .get _ => none

/-- Whether a remote operation is a write. -/
def isPut : RemoteOp → Bool
  | .put _ _ => true
  | .get _ => false

/-- Number of remote writes in a trace. -/
def putCount (tr : List RemoteOp) : Nat := (tr.filter isPut).length

/-- The properties carried by the most recent remote write. -/
def lastPutProps (tr : List RemoteOp) : Option Props :=
  tr.reverse.findSome? putPropsOf

/-- The path a commit of `st` refreshes from: the existing path, or
the remotely assigned one for a new object. -/
def committedPath (st : DitState) : String :=
  if st.obj.path != "" then st.obj.path else st.fresh

/-- Concrete session used against the staging claim: an element that
already has path `"p"`, held in the store, with two properties. -/
def cxState : DitState :=
  { store := [("p", [("A", "0"), ("B", "0")])],
    fresh := "q",
    obj := { props := [("A", "0"), ("B", "0")], path := "p" },
    trace := [] }

/-- Concrete session used to exercise a successful commit: the
element's path `"p"` is present in the store. -/
def wState : DitState :=
  { store := [("p", [("CITY", "Rome")])],
    fresh := "q",
    obj := { props := [("CITY", "Rochester")], path := "p" },
    trace := [] }

/-! ## Notification watchers (`_DITWatcher`, `HWatcher`, `SWatcher`)

A WMI instance is its property sheet (`Properties_`, in order); a
property value is either a primitive or a nested WMI object (such as
the `Alarm` member of a hardware event).  The asynchronous platform
notifications are embedded as the stream of events that have arrived;
one watcher call synchronously consumes the next one. -/

/-- A WMI property value of an event instance. -/
inductive EVal where
  | prim (s : String)
  | obj (props : List (String × EVal))

/-- A WMI event instance: `Properties_` as (name, value) pairs. -/
abbrev WmiInst := List (String × EVal)

/-- A Python value stored in the returned event dict: a WMI value, a
nested dict produced by `_to_dict`, or `None`. -/
inductive PyVal where
  | val (v : EVal)
  | pdict (d : List (String × PyVal))
  | pnone

abbrev PyDict := List (String × PyVal)

/-- Python `d[k] = v` on a dict without duplicate keys: replace the
binding in place, or append a new one. -/
def dictSet : PyDict → String → PyVal → PyDict
  | [], k, v => [(k, v)]
  | p :: ps, k, v => if p.1 == k then (k, v) :: ps else p :: dictSet ps k v

/-- Python `d[k]` on a dict (`none` models `KeyError`). -/
def dlookup (d : PyDict) (k : String) : Option PyVal :=
  (d.find? (fun p => p.1 == k)).map Prod.snd

/-- `_DITWatcher._to_dict`: the dict comprehension
`{p.Name: p.Value for p in wmi_obj.Properties_}` (for duplicate names
the last value wins, at the first occurrence's position). -/
def pyDictOf (ps : WmiInst) : PyDict :=
  ps.foldl (fun d p => dictSet d p.1 (.val p.2)) []

/-- The value a dict comprehension over `ps` associates with name `k`:
the last value listed for `k`, if any. -/
def lastVal (ps : WmiInst) (k : String) : Option EVal :=
  (ps.reverse.find? (fun p => p.1 == k)).map Prod.snd

/-- Python errors raised by the embedded fragments. -/
inductive PyErr where
  | keyError
  | attributeError
  | valueError (msg : String)
  | xWmi (msg : String)
  | indexError
  | wouldBlock
deriving DecidableEq

/-- The dict `HWatcher.__call__` builds from a hardware event whose
`Alarm` property holds the nested object `a`. -/
def hwEventDict (e : WmiInst) (a : WmiInst) : PyDict :=
  dictSet (pyDictOf e) "Alarm" (.pdict (pyDictOf a))

/-- Modelled from the spec: `pyog._wmii._wmi_watcher.__call__` is in
the `pyog` package but its file is not among the sources; per the
docstrings in `dit.py` it blocks until a platform notification arrives
and returns that event instance.  `HWatcher.__call__` then converts
the instance to a dict and converts the `Alarm` value itself to a
dict.  Blocking is embedded as consuming the head of the stream of
arrived events (`wouldBlock` stands for a call that has nothing to
consume and does not return). -/
def hwCall : List WmiInst → Except PyErr (PyDict × List WmiInst)
  | [] => .error .wouldBlock
  | e :: rest =>
    match dlookup (pyDictOf e) "Alarm" with
    | none => .error .keyError
    | some (.val (.obj a)) => .ok (hwEventDict e a, rest)
    | some _ => .error .attributeError

/-- A software (intrinsic) event: the target instance and, when
available, the previous state of the instance. -/
structure SWEvent where
  target : WmiInst
  previous : Option WmiInst

/-- The `previous` value `SWatcher.__call__` stores:
`_to_dict(event.previous)` when available, else `None`. -/
def prevToVal : Option WmiInst → PyVal
  | some p => .pdict (pyDictOf p)
  | none => .pnone

/-- The dict `SWatcher.__call__` builds from a software event. -/
def swEventDict (sv : SWEvent) : PyDict :=
  dictSet (pyDictOf sv.target) "previous" (prevToVal sv.previous)

/-- Modelled from the spec: as for `hwCall`, the blocking pull of
`_wmii._wmi_watcher` is embedded as consuming the head of the arrived
event stream; `SWatcher.__call__` converts the instance to a dict and
adds the `previous` key. -/
def swCall : List SWEvent → Except PyErr (PyDict × List SWEvent)
  | [] => .error .wouldBlock
  | sv :: rest => .ok (swEventDict sv, rest)

/-- Concrete hardware event instance (shape of the docstring example). -/
def evtE : WmiInst :=
  [("ID", .prim "1"), ("Alarm", .obj [("Priority", .prim "50")])]

/-- The nested `Alarm` object of `evtE`. -/
def evtA : WmiInst := [("Priority", .prim "50")]

/-- Concrete software event with no previous instance state. -/
def evtSV : SWEvent := { target := [("ID", .prim "314")], previous := none }

/-! ## `DITConnection.data_query` and `open_door` -/

/-- A property value on a data-query result row. -/
inductive DVal where
  | int (n : Int)
  | str (s : String)
  | null
deriving DecidableEq

/-- A result row of `namespace.query`: the row object's named
properties. -/
abbrev Row := List (String × DVal)

/-- A component of a returned result tuple: a property value
(`getattr(r, p.upper())`) or a `DITElement` wrapper around the row
object. -/
inductive RVal where
  | attr (v : DVal)
  | elem (r : Row)
deriving DecidableEq

/-- Python `getattr(r, name)` on a result row (`none` models
`AttributeError`). -/
def getattrRow (r : Row) (name : String) : Option DVal :=
  (r.find? (fun p => p.1 == name)).map Prod.snd

/-- `DITConnection.data_query(wql)`.  The remote query engine is the
oracle `env`, mapping a WQL string to its result rows.  The select
list is `wql[7:wql.lower().index(' from')]` split at commas and
stripped; a missing `' from'` raises `ValueError`; a leading `'*'`
returns one tuple of `DITElement` wrappers, otherwise each row yields
one tuple with the named properties looked up uppercased. -/
def data_query (env : String → List Row) (wql : String) :
    Except PyErr (List (List RVal)) :=
  let results := env wql
  match subIdx " from".data (lowerStr wql).data with
  | none => .error (.valueError "substring not found")
  | some i =>
    let properties : List String :=
      ((splitCommaC ((wql.data.take i).drop 7)).map trimChars).map
        (fun cs => String.mk cs)
    match properties with
    | [] => .error .indexError  -- unreachable: a comma split is never empty
    | p0 :: _ =>
      if p0 = "*" then .ok [results.map RVal.elem]
      else
        results.mapM (fun r =>
          properties.mapM (fun p =>
            match getattrRow r (upperStr p) with
            | some v => Except.ok (RVal.attr v)
            | none => Except.error PyErr.attributeError))

/-- The panel-ID query string `open_door` builds. -/
def panelQueryStr (panel : String) : String :=
  "select ID from Lnl_Panel where NAME = \"" ++ panel ++ "\""

/-- Python `str()` of a result tuple component, as interpolated into
an f-string. -/
def pyStrRVal : RVal → String
  | .attr (.int n) => toString n
  | .attr (.str s) => s
  | .attr .null => "None"
  | .elem _ => "<wmi_object>"

/-- The reader query string `open_door` builds from the first panel-ID
value. -/
def readerQueryStr (pid : RVal) (reader : String) : String :=
  "select * from Lnl_Reader where PanelID = " ++ pyStrRVal pid ++
    " and Name = \"" ++ reader ++ "\""

/-- The effect of a successful `open_door`: `OpenDoor()` invoked on
the wrapped reader object. -/
inductive DoorOutcome where
  | opened (reader : Row)
deriving DecidableEq

/-- `DITConnection.open_door(panel, reader)`: returns the list of WQL
queries issued to the namespace together with the outcome.  An empty
panel-ID result raises `_not_found_error("reader", reader)` (the
message names the *reader*); a found panel with an empty reader result
raises `_not_found_error("panel", panel)`; otherwise
`lnl_reader[0][0].OpenDoor()` runs. -/
def open_door (env : String → List Row) (panel reader : String) :
    List String × Except PyErr DoorOutcome :=
  let pq := panelQueryStr panel
  match data_query env pq with
  | .error e => ([pq], .error e)
  | .ok panel_id =>
    match panel_id with
    | [] => ([pq], .error (.xWmi ("reader \"" ++ reader ++ "\" not found.")))
    | row0 :: _ =>
      match row0 with
      | [] => ([pq], .error .indexError)
      | v0 :: _ =>
        let rq := readerQueryStr v0 reader
        match data_query env rq with
        | .error e => ([pq, rq], .error e)
        | .ok rdr =>
          match rdr with
          | [] => ([pq, rq], .error (.xWmi ("panel \"" ++ panel ++ "\" not found.")))
          | r0 :: _ =>
            match r0 with
            | [] => ([pq, rq], .error .indexError)
            | RVal.elem er :: _ => ([pq, rq], .ok (.opened er))
            | RVal.attr _ :: _ => ([pq, rq], .error .attributeError)

/-! ## `SWatcher.__init__` and `DITConnection.software_events` -/

/-- Module constant `SWOperationEvent`. -/
def SWOperationEvent : String := "__InstanceOperationEvent"

/-- `SWatcher.targets`. -/
def swTargets : List String :=
  ["lnl_cardholder", "lnl_visitor", "lnl_badge", "lnl_account"]

/-- The notification query `SWatcher.__init__` builds. -/
def swatcherQuery (TargetCls operation : String) : String :=
  "select * from " ++ operation ++ " where TargetInstance ISA \x27" ++
    TargetCls ++ "\x27"

/-- `SWatcher.__init__(connection, TargetCls, operation)`: the list of
notification queries issued to `ExecNotificationQuery` together with
the outcome.  An unsupported target class (case-insensitively) raises
`ValueError` before any query is issued. -/
def swatcherInit (TargetCls operation : String) :
    List String × Except PyErr Unit :=
  if swTargets.contains (lowerStr TargetCls) then
    ([swatcherQuery TargetCls operation], .ok ())
  else
    ([], .error (.valueError ("Invalid target class: " ++ TargetCls)))

/-- `DITConnection.software_events(TargetCls)` with the default
operation `__InstanceOperationEvent`. -/
def software_events (TargetCls : String) : List String × Except PyErr Unit :=
  swatcherInit TargetCls SWOperationEvent

/-! ## Connection bootstrap (`_connect_dit`, `DIT`, `DITConnection`) -/

/-- An external COM call performed while connecting. -/
inductive ExtAction where
  | coInit
  | dispatch (progid : String)
  | connectServer (server nsPath user pass : String)
deriving DecidableEq

/-- The raw WMI namespace connection `ConnectServer` hands back, kept
symbolic as the quadruple of its arguments. -/
structure WmiNs where
  server : String
  nsPath : String
  user : String
  pass : String
deriving DecidableEq

/-- `DITConnection`: wraps the raw namespace connection. -/
structure DITConnection where
  mkConn ::
  _namespace : WmiNs
deriving DecidableEq

/-- The `namespace` property of `DITConnection` (the identifier
`namespace` is reserved in Lean): exposes the raw namespace
connection. -/
def DITConnection.nspace (c : DITConnection) : WmiNs := c._namespace

/-- `_connect_dit(server, username, password, coinitialize)`: the
COM calls performed, in order, and the returned connection manager.
`CoInitialize()` runs first when requested; then the
`WbemScripting.SWbemLocator` dispatch and
`ConnectServer(server, "Root\OnGuard", username, password)`. -/
def _connect_dit (server username password : String) (coinit : Bool) :
    List ExtAction × DITConnection :=
  ((if coinit then [ExtAction.coInit] else []) ++
     [ExtAction.dispatch "WbemScripting.SWbemLocator",
      ExtAction.connectServer server "Root\\OnGuard" username password],
   ⟨⟨server, "Root\\OnGuard", username, password⟩⟩)

/-- `DIT = _connect_dit`. -/
def DIT (server username password : String) (coinit : Bool) :
    List ExtAction × DITConnection :=
  _connect_dit server username password coinit

/-- The Python defaults: `server="."`, `username=""`, `password=""`,
`coinitialize=False`. -/
def DIT_defaults : List ExtAction × DITConnection :=
  _connect_dit "." "" "" false

/-! ## Helper lemmas -/

theorem dlookup_dictSet (d : PyDict) (k k2 : String) (v : PyVal) :
    dlookup (dictSet d k v) k2 = if k2 = k then some v else dlookup d k2 := by
  induction d with
  | nil =>
    by_cases h2 : k = k2
    · subst h2
      simp [dictSet, dlookup, List.find?]
    · have hb : (k == k2) = false := by rw [beq_eq_false_iff_ne]; exact h2
      have h2' : ¬ k2 = k := fun h => h2 h.symm
      simp [dictSet, dlookup, List.find?, hb, h2']
  | cons p ps ih =>
    by_cases hp : p.1 = k
    · have hbp : (p.1 == k) = true := by simp [hp]
      by_cases h2 : k = k2
      · subst h2
        simp [dictSet, dlookup, List.find?, hbp]
      · have hb : (k == k2) = false := by rw [beq_eq_false_iff_ne]; exact h2
        have h2' : ¬ k2 = k := fun h => h2 h.symm
        have hbp2 : (p.1 == k2) = false := by
          rw [beq_eq_false_iff_ne]; rw [hp]; exact h2
        simp [dictSet, dlookup, List.find?, hbp, hb, h2', hbp2]
    · have hbp : (p.1 == k) = false := by rw [beq_eq_false_iff_ne]; exact hp
      by_cases h2 : k2 = p.1
      · have hk : ¬ k2 = k := by rw [h2]; exact hp
        have hb2 : (p.1 == k2) = true := by simp [h2]
        simp [dictSet, dlookup, List.find?, hbp, hb2, hk]
      · have hb2 : (p.1 == k2) = false := by
          rw [beq_eq_false_iff_ne]; exact fun h => h2 h.symm
        rw [show dictSet (p :: ps) k v = p :: dictSet ps k v from by
              simp [dictSet, hbp]]
        rw [show dlookup (p :: dictSet ps k v) k2 = dlookup (dictSet ps k v) k2 from by
              simp [dlookup, List.find?, hb2]]
        rw [show dlookup (p :: ps) k2 = dlookup ps k2 from by
              simp [dlookup, List.find?, hb2]]
        exact ih

theorem pyDictOf_append_single (ps : WmiInst) (p : String × EVal) :
    pyDictOf (ps ++ [p]) = dictSet (pyDictOf ps) p.1 (.val p.2) := by
  simp [pyDictOf, List.foldl_append]

theorem dlookup_pyDictOf (ps : WmiInst) (k : String) :
    dlookup (pyDictOf ps) k = (lastVal ps k).map PyVal.val := by
  induction ps using List.reverseRecOn with
  | nil => simp [pyDictOf, dlookup, lastVal]
  | append_singleton ps p ih =>
    rw [pyDictOf_append_single, dlookup_dictSet]
    by_cases h : k = p.1
    · simp [lastVal, h]
    · have : (p.1 == k) = false := by
        simp only [beq_eq_false_iff_ne, ne_eq]
        exact fun hh => h hh.symm
      simp [lastVal, h, this] at ih ⊢
      exact ih

theorem subIdx_least (pat l : List Char) (i : Nat) (h : subIdx pat l = some i) :
    pat.isPrefixOf (l.drop i) = true ∧
      ∀ j, j < i → pat.isPrefixOf (l.drop j) = false := by
  induction l generalizing i with
  | nil =>
    by_cases hp : pat = []
    · simp [subIdx, hp] at h
      subst h
      simp [hp, List.isPrefixOf]
    · simp [subIdx, hp] at h
  | cons c cs ih =>
    cases hpre : pat.isPrefixOf (c :: cs) with
    | true =>
      simp [subIdx, hpre] at h
      subst h
      refine ⟨by simpa using hpre, ?_⟩
      intro j hj
      exact absurd hj (Nat.not_lt_zero j)
    | false =>
      simp [subIdx, hpre] at h
      obtain ⟨i', hi', rfl⟩ := h
      obtain ⟨h1, h2⟩ := ih i' hi'
      refine ⟨by simpa using h1, ?_⟩
      intro j hj
      cases j with
      | zero => simpa using hpre
      | succ j' => simpa using h2 j' (by omega)

theorem storeGet_storeSet_self (s : List (String × Props)) (p : String) (ps : Props) :
    storeGet (storeSet s p ps) p = some ps := by
  induction s with
  | nil => simp [storeSet, storeGet, List.find?]
  | cons q qs ih =>
    by_cases h : q.1 = p
    · simp [storeSet, storeGet, List.find?, h]
    · have : (q.1 == p) = false := by simpa using h
      simp [storeSet, storeGet, List.find?, this] at ih ⊢
      exact ih

theorem putCount_append (t1 t2 : List RemoteOp) :
    putCount (t1 ++ t2) = putCount t1 + putCount t2 := by
  simp [putCount, List.filter_append]

theorem lastPutProps_append_get (t : List RemoteOp) (p : String) :
    lastPutProps (t ++ [.get p]) = lastPutProps t := by
  simp [lastPutProps, putPropsOf]

theorem lastPutProps_append_put (t : List RemoteOp) (p : String) (ps : Props) :
    lastPutProps (t ++ [.put p ps]) = some ps := by
  simp [lastPutProps, putPropsOf]

theorem lastPutProps_append_put_get (t : List RemoteOp) (p p2 : String)
    (ps : Props) :
    lastPutProps (t ++ [.put p ps, .get p2]) = some ps := by
  simp [lastPutProps, putPropsOf]

theorem ditRefresh_fst_trace (st : DitState) (p : String) :
    (ditRefresh st p).1.trace = st.trace ++ [.get p] := by
  unfold ditRefresh
  cases h : storeGet st.store p <;> simp [h]

theorem ditRefresh_fst_store (st : DitState) (p : String) :
    (ditRefresh st p).1.store = st.store := by
  unfold ditRefresh
  cases h : storeGet st.store p <;> simp [h]

theorem pow2_pred_eq (k s : Nat) :
    ((2 ^ k &&& s != 0) || ((2 ^ k : Nat) == 0)) =
      ((2 ^ k != 0) && (2 ^ k &&& s == 2 ^ k)) := by
  have hpos : (2 : Nat) ^ k ≠ 0 := (pow_pos (by norm_num) k).ne'
  have hand : 2 ^ k &&& s = 2 ^ k * (s.testBit k).toNat := Nat.two_pow_and s k
  cases ht : s.testBit k with
  | false =>
    have h1 : ((2 : Nat) ^ k == 0) = false := by simp
    have h2 : ((0 : Nat) == 2 ^ k) = false := by simp; exact Ne.symm hpos
    simp [hand, ht, bne, h1, h2]
  | true => simp [hand, ht, hpos]

theorem hwDecode_eq_spec (t : StatusTable)
    (h : ∀ p ∈ t, (List.range 32).any (fun k => p.1 == 2 ^ k)) (s : Nat) :
    hwDecode t s = specBitDecode t s := by
  unfold hwDecode specBitDecode
  congr 1
  apply List.filter_congr
  intro p hp
  have hh := h p hp
  simp only [List.any_eq_true, List.mem_range, beq_iff_eq] at hh
  obtain ⟨k, _, hpk⟩ := hh
  rw [hpk]
  exact pow2_pred_eq k s

theorem tableLookup_mem (t : StatusTable) (s : Nat) (h : s ∈ t.map Prod.fst) :
    ∃ v, tableLookup t s = some v := by
  have hs : (t.find? (fun p => p.1 == s)).isSome := by
    rw [List.find?_isSome]
    obtain ⟨p, hp, he⟩ := List.mem_map.mp h
    exact ⟨p, hp, by simp [he]⟩
  obtain ⟨q, hq⟩ := Option.isSome_iff_exists.mp hs
  exact ⟨q.2, by simp [tableLookup, hq]⟩

theorem tableLookup_not_mem (t : StatusTable) (s : Nat) (h : s ∉ t.map Prod.fst) :
    tableLookup t s = none := by
  unfold tableLookup
  rw [List.find?_eq_none.mpr]
  · rfl
  · intro x hx
    simp only [beq_iff_eq]
    exact fun he => h (List.mem_map.mpr ⟨x, hx, he⟩)

theorem mkCOMError_code (e : PyComErr) :
    (mkCOMError e).code = hexStr (signedToUnsigned e.hresult) := by
  cases he : e.excepinfo <;> simp [mkCOMError, he]

theorem mkDITError_fields (info : DitErrInfo) (e : PyComErr) :
    mkDITError info e =
      { source := if info.Operation != "" then info.Operation
                  else (mkCOMError e).source,
        description := if info.Description != "" then info.Description
                       else (mkCOMError e).description,
        code := match findStatusCode info.objectText.data with
                | some n => hexStr n
                | none => (mkCOMError e).code,
        param_info := info.ParameterInfo } := by
  unfold mkDITError
  cases hf : findStatusCode info.objectText.data <;>
    cases h1 : (info.Operation != "") <;>
    cases h2 : (info.Description != "") <;>
    simp [h1, h2, hf]

/-! ## Claim theorems -/

/-- C6: for every status-decoding table of the module that uses the
inherited `HWStatus.decode` (`PANEL_STATUS`, `ALARM_PANEL_STATUS`,
`READER_STATUS`) and every integer status, `decode(status)` returns
exactly the table entries, in insertion order, that make up the ORed
encoded status, i.e. one descriptive value for each individual status
encoded in the bitmask according to the table's code-to-name
mapping. -/
theorem c6_bitmask_decode (s : Nat) :
    hwDecode PANEL_STATUS s = specBitDecode PANEL_STATUS s
  ∧ hwDecode ALARM_PANEL_STATUS s = specBitDecode ALARM_PANEL_STATUS s
  ∧ hwDecode READER_STATUS s = specBitDecode READER_STATUS s :=
  ⟨hwDecode_eq_spec PANEL_STATUS (by decide) s,
   hwDecode_eq_spec ALARM_PANEL_STATUS (by decide) s,
   hwDecode_eq_spec READER_STATUS (by decide) s⟩

/-- C10 counterexample: the claim that `_InputStatus.decode` raises
`KeyError` for "any ORed combination of keys" fails at the concrete
status `0x1 ||| 0x2`: both `0x1` and `0x2` are keys of the input
table, yet their OR, `0x3`, is itself a key, so `decode` returns
`['ALRM_STATUS_SHRT_FLT']` instead of raising. -/
theorem c10_counterexample :
    exactDecode INPUT_STATUS (0x1 ||| 0x2) = some ["ALRM_STATUS_SHRT_FLT"]
  ∧ (0x1 ∈ INPUT_STATUS.map Prod.fst) ∧ (0x2 ∈ INPUT_STATUS.map Prod.fst) :=
  ⟨rfl, by decide, by decide⟩

/-- C10 amended: for the output and input status tables (used for
`Lnl_AlarmOutput`, `Lnl_AlarmInput` and the reader input/output
classes), `decode` performs an exact dictionary lookup —
`decode(status)` returns the single-element list `[table[status]]`
when `status` is exactly one of the table's keys and raises `KeyError`
for every other integer; an ORed combination of keys raises `KeyError`
only when the combined value is not itself a key. -/
theorem c10_amended_exact_decode (s : Nat) :
    (s ∈ OUTPUT_STATUS.map Prod.fst →
       ∃ v, tableLookup OUTPUT_STATUS s = some v ∧
         exactDecode OUTPUT_STATUS s = some [v])
  ∧ (s ∉ OUTPUT_STATUS.map Prod.fst → exactDecode OUTPUT_STATUS s = none)
  ∧ (s ∈ INPUT_STATUS.map Prod.fst →
       ∃ v, tableLookup INPUT_STATUS s = some v ∧
         exactDecode INPUT_STATUS s = some [v])
  ∧ (s ∉ INPUT_STATUS.map Prod.fst → exactDecode INPUT_STATUS s = none)
  ∧ statusClsLookup "Lnl_AlarmOutput" = some OUTPUT_STATUS
  ∧ statusClsLookup "Lnl_AlarmInput" = some INPUT_STATUS
  ∧ statusClsLookup "Lnl_ReaderInput" = some INPUT_STATUS
  ∧ statusClsLookup "Lnl_ReaderInput1" = some INPUT_STATUS
  ∧ statusClsLookup "Lnl_ReaderInput2" = some INPUT_STATUS
  ∧ statusClsLookup "Lnl_ReaderOutput" = some OUTPUT_STATUS
  ∧ statusClsLookup "Lnl_ReaderOutput1" = some OUTPUT_STATUS
  ∧ statusClsLookup "Lnl_ReaderOutput2" = some OUTPUT_STATUS := by
  refine ⟨?_, ?_, ?_, ?_, rfl, rfl, rfl, rfl, rfl, rfl, rfl, rfl⟩
  · intro h
    obtain ⟨v, hv⟩ := tableLookup_mem OUTPUT_STATUS s h
    exact ⟨v, hv, by simp [exactDecode, hv]⟩
  · intro h
    simp [exactDecode, tableLookup_not_mem OUTPUT_STATUS s h]
  · intro h
    obtain ⟨v, hv⟩ := tableLookup_mem INPUT_STATUS s h
    exact ⟨v, hv, by simp [exactDecode, hv]⟩
  · intro h
    simp [exactDecode, tableLookup_not_mem INPUT_STATUS s h]

/-- C10 witness: the amended exact-lookup behaviour at the concrete
statuses `0x100` (a key of the input table) and `7` (not a key of the
output table). -/
theorem c10_amended_exact_decode_witness :
    (∃ v, tableLookup INPUT_STATUS 0x100 = some v ∧
       exactDecode INPUT_STATUS 0x100 = some [v])
  ∧ exactDecode OUTPUT_STATUS 7 = none :=
  ⟨(c10_amended_exact_decode 0x100).2.2.1 (by decide),
   (c10_amended_exact_decode 7).2.1 (by decide)⟩

/-- C7: `DIT` (alias of `_connect_dit`), for every server name
(Python default `"."`), username and password, connects to the
`Root\OnGuard` WMI namespace on that server and returns a
`DITConnection` whose `namespace` property exposes the raw namespace
connection; when `coinitialize` is true the COM libraries are
initialized for the current thread before any COM object is
touched. -/
theorem c7_connect_bootstrap (server username password : String) (c : Bool) :
    (_connect_dit server username password true).1 =
      ExtAction.coInit :: (_connect_dit server username password false).1
  ∧ ExtAction.coInit ∉ (_connect_dit server username password false).1
  ∧ (_connect_dit server username password c).1.getLast? =
      some (ExtAction.connectServer server "Root\\OnGuard" username password)
  ∧ (_connect_dit server username password c).2.nspace =
      ⟨server, "Root\\OnGuard", username, password⟩
  ∧ DIT server username password c = _connect_dit server username password c
  ∧ DIT_defaults = _connect_dit "." "" "" false := by
  refine ⟨rfl, ?_, ?_, rfl, rfl, rfl⟩
  · simp [_connect_dit]
  · cases c <;> rfl

/-- C9: `software_events` (via `SWatcher.__init__`) raises
`ValueError` for every target class name that is not,
case-insensitively, one of `lnl_cardholder`, `lnl_visitor`,
`lnl_badge`, `lnl_account`, and it does so before any notification
query is issued; for accepted target classes the single issued query
is `select * from <operation> where TargetInstance ISA
'<TargetCls>'`. -/
theorem c9_software_events (T op : String) :
    (swTargets.contains (lowerStr T) = false →
       swatcherInit T op =
         ([], .error (.valueError ("Invalid target class: " ++ T))))
  ∧ (swTargets.contains (lowerStr T) = true →
       swatcherInit T op = ([swatcherQuery T op], .ok ())
       ∧ swatcherQuery T op =
           "select * from " ++ op ++ " where TargetInstance ISA \x27" ++
             T ++ "\x27")
  ∧ software_events T = swatcherInit T SWOperationEvent
  ∧ swTargets = ["lnl_cardholder", "lnl_visitor", "lnl_badge", "lnl_account"] := by
  refine ⟨?_, ?_, rfl, rfl⟩
  · intro h
    have h' : lowerStr T ∉ swTargets := by simpa using h
    simp [swatcherInit, h']
  · intro h
    have h' : lowerStr T ∈ swTargets := by simpa using h
    exact ⟨by simp [swatcherInit, h'], rfl⟩

/-- C9 witness: a rejected target class (`Lnl_Panel`) yields
`ValueError` with no query issued, and an accepted one
(`LNL_Badge`, case-insensitively valid) issues exactly the ISA
query. -/
theorem c9_software_events_witness :
    swatcherInit "Lnl_Panel" "__InstanceOperationEvent" =
      ([], .error (.valueError ("Invalid target class: " ++ "Lnl_Panel")))
  ∧ swatcherInit "LNL_Badge" "__InstanceCreationEvent" =
      ([swatcherQuery "LNL_Badge" "__InstanceCreationEvent"], .ok ()) :=
  ⟨(c9_software_events "Lnl_Panel" "__InstanceOperationEvent").1 (by rfl),
   ((c9_software_events "LNL_Badge" "__InstanceCreationEvent").2.1 (by rfl)).1⟩

/-- C4 counterexample: the claim that the raised `DITError` carries
the provider's `Operation` as its source fails at a concrete input
whose error object has a falsy (empty) `Operation`: the source then
stays the in-flight `com_error`'s `excepinfo` source
(`"ProviderSrc"`), not the provider's `Operation` (`""`). -/
theorem c4_counterexample :
    raisedSource (handle_error (some cxInfo) cxCom) = "ProviderSrc"
  ∧ cxInfo.Operation = ""
  ∧ ("ProviderSrc" : String) ≠ "" :=
  ⟨rfl, rfl, by decide⟩

/-- C4 amended: `handle_error` always raises; it raises a `DITError`
exactly when the external provider supplies error information and a
plain `COMError` otherwise.  The `DITError` carries the provider's
`ParameterInfo`, carries `Operation` as source and `Description` as
description when these are non-empty (retaining the `COMError`-derived
values otherwise), and carries the `StatusCode` parsed from the error
object's text as a hex code when the text contains one (retaining the
hex of the `com_error`'s HRESULT otherwise); the `COMError` is built
from the in-flight `com_error`'s hresult and excepinfo (falling back
to `strerror` for the description when excepinfo is absent). -/
theorem c4_amended_handle_error (info : DitErrInfo) (e : PyComErr) :
    isDitRaised (handle_error (some info) e) = true
  ∧ isDitRaised (handle_error none e) = false
  ∧ handle_error none e = .com (mkCOMError e)
  ∧ handle_error (some info) e = .dit (mkDITError info e)
  ∧ (mkDITError info e).source =
      (if info.Operation != "" then info.Operation else (mkCOMError e).source)
  ∧ (mkDITError info e).param_info = info.ParameterInfo
  ∧ (mkDITError info e).description =
      (if info.Description != "" then info.Description
       else (mkCOMError e).description)
  ∧ (mkDITError info e).code =
      (match findStatusCode info.objectText.data with
       | some n => hexStr n
       | none => hexStr (signedToUnsigned e.hresult))
  ∧ (mkCOMError e).code = hexStr (signedToUnsigned e.hresult)
  ∧ (match e.excepinfo with
     | some sd => (mkCOMError e).source = sd.1 ∧
                  (mkCOMError e).description = sd.2
     | none => (mkCOMError e).source = "" ∧
               (mkCOMError e).description = e.strerror) := by
  refine ⟨rfl, rfl, rfl, rfl, ?_, ?_, ?_, ?_, mkCOMError_code e, ?_⟩
  · rw [mkDITError_fields]
  · rw [mkDITError_fields]
  · rw [mkDITError_fields]
  · rw [mkDITError_fields]
    cases hf : findStatusCode info.objectText.data <;>
      simp [hf, mkCOMError_code]
  · cases he : e.excepinfo <;> simp [mkCOMError, he]

/-- C1 counterexample: property mutations are not staged until a later
commit point.  On a concrete element with path `"p"`, the sequence of
two attribute assignments `x.A = "1"; x.B = "2"` performs two separate
remote writes (one per assignment), and already after the first
assignment alone the remote store at `"p"` holds `A = "1"` — the first
mutation is written before the sequence is over, and the write it
belongs to does not contain the second mutation, so the sequence is
not committed as one batch. -/
theorem c1_counterexample :
    putCount (elemSetattr (elemSetattr cxState "A" "1").1 "B" "2").1.trace = 2
  ∧ storeGet (elemSetattr cxState "A" "1").1.store "p" =
      some [("A", "1"), ("B", "0")]
  ∧ lastPutProps (elemSetattr cxState "A" "1").1.trace =
      some [("A", "1"), ("B", "0")] :=
  ⟨rfl, rfl, rfl⟩

/-- C1 amended: mutations are committed eagerly, one commit per
mutating call, not lazily until a later commit point:
`set(**kwargs)` stages its keyword properties locally and writes them
to the remote store as a single batch (exactly one remote write,
carrying all the staged properties), while each individual attribute
assignment likewise performs exactly one remote write carrying that
assignment — so a sequence of n attribute assignments performs n
separate writes rather than one deferred batch. -/
theorem c1_amended_eager_commit (st : DitState) (kwargs : Props) (k v : String) :
    putCount (elemSet st kwargs).1.trace = putCount st.trace + 1
  ∧ lastPutProps (elemSet st kwargs).1.trace =
      some (applyKwargs st.obj.props kwargs)
  ∧ putCount (elemSetattr st k v).1.trace = putCount st.trace + 1
  ∧ lastPutProps (elemSetattr st k v).1.trace =
      some (propSet st.obj.props k v) := by
  cases hb : (st.obj.path != "") <;>
    simp [elemSet, elemSetattr, wmiSet, wmiSetattr, ditCommit, wmiPutNew, hb,
          ditRefresh_fst_trace, putCount_append, lastPutProps_append_get,
          lastPutProps_append_put, lastPutProps_append_put_get, putCount,
          isPut, List.filter]

/-- C2: after every successful commit of a `DITElement`, the wrapper
refreshes its local state from the authoritative remote source: the
object's local members are replaced by those of a freshly fetched
instance obtained from the namespace at the committed object's path
(the pre-existing path, or the path the remote assigned on `Put_`),
and the final remote operation of the commit is that fetch. -/
theorem c2_commit_refreshes (st : DitState) (h : (ditCommit st).2 = .ok ()) :
    storeGet (ditCommit st).1.store (committedPath st) =
      some ((ditCommit st).1.obj.props)
  ∧ (ditCommit st).1.obj.path = committedPath st
  ∧ (ditCommit st).1.trace.getLast? = some (.get (committedPath st)) := by
  unfold ditCommit at h ⊢
  unfold committedPath
  cases hb : (st.obj.path != "")
  · have hget := storeGet_storeSet_self st.store st.fresh st.obj.props
    simp [hb, ditRefresh, wmiPutNew, hget]
  · cases hsg : storeGet st.store st.obj.path with
    | none =>
      exfalso
      simp [hb, ditRefresh, hsg] at h
    | some ps =>
      simp [hb, ditRefresh, hsg]

/-- C2 witness: a successful commit of a concrete pathed element
fetches the store's state at its path and installs it locally. -/
theorem c2_commit_refreshes_witness :
    storeGet (ditCommit wState).1.store (committedPath wState) =
      some ((ditCommit wState).1.obj.props)
  ∧ (ditCommit wState).1.obj.path = committedPath wState
  ∧ (ditCommit wState).1.trace.getLast? =
      some (.get (committedPath wState)) :=
  c2_commit_refreshes wState (by rfl)

/-- C3: each watcher call synchronously consumes the next arrived
platform notification and returns it as a dict mapping every property
name of the event instance to its value; for hardware events the
`Alarm` value is itself converted to a dict, and for software events
the returned dict additionally has a `previous` key holding the prior
instance state as a dict when available and `None` otherwise. -/
theorem c3_watcher_pull (e : WmiInst) (rest : List WmiInst) (a : WmiInst)
    (k : String) (h : dlookup (pyDictOf e) "Alarm" = some (.val (.obj a)))
    (hk : k ≠ "Alarm") (sv : SWEvent) (rest2 : List SWEvent) (k2 : String)
    (hk2 : k2 ≠ "previous") :
    hwCall (e :: rest) = .ok (hwEventDict e a, rest)
  ∧ dlookup (hwEventDict e a) k = (lastVal e k).map PyVal.val
  ∧ dlookup (hwEventDict e a) "Alarm" = some (.pdict (pyDictOf a))
  ∧ swCall (sv :: rest2) = .ok (swEventDict sv, rest2)
  ∧ dlookup (swEventDict sv) k2 = (lastVal sv.target k2).map PyVal.val
  ∧ dlookup (swEventDict sv) "previous" = some (prevToVal sv.previous) := by
  refine ⟨?_, ?_, ?_, rfl, ?_, ?_⟩
  · simp [hwCall, h]
  · rw [hwEventDict, dlookup_dictSet]
    simp [hk, dlookup_pyDictOf]
  · rw [hwEventDict, dlookup_dictSet]
    simp
  · rw [swEventDict, dlookup_dictSet]
    simp [hk2, dlookup_pyDictOf]
  · rw [swEventDict, dlookup_dictSet]
    simp

/-- C3 witness: the pull interface at a concrete hardware event (with
a nested `Alarm` object) and a concrete software event (with no
previous instance). -/
theorem c3_watcher_pull_witness :
    hwCall [evtE] = .ok (hwEventDict evtE evtA, [])
  ∧ dlookup (hwEventDict evtE evtA) "ID" = (lastVal evtE "ID").map PyVal.val
  ∧ dlookup (hwEventDict evtE evtA) "Alarm" = some (.pdict (pyDictOf evtA))
  ∧ swCall [evtSV] = .ok (swEventDict evtSV, [])
  ∧ dlookup (swEventDict evtSV) "ID" =
      (lastVal evtSV.target "ID").map PyVal.val
  ∧ dlookup (swEventDict evtSV) "previous" =
      some (prevToVal evtSV.previous) :=
  c3_watcher_pull evtE [] evtA "ID" (by rfl) (by decide) evtSV [] "ID"
    (by decide)

/-- C5: `data_query` parsing — when `' from'` occurs (case-insensitively)
in the query, the index used is its first occurrence; the property
names are the comma-separated, whitespace-trimmed tokens between
character position 7 and that occurrence; when the first token is not
`'*'` the result has one tuple per result row with the value of each
named property looked up uppercased, in the listed order; when the
first token is `'*'` the result is a list of tuples of `DITElement`
wrappers around the result objects. -/
theorem c5_data_query (env : String → List Row) (wql : String) (i : Nat)
    (h : subIdx " from".data (lowerStr wql).data = some i) :
    (" from".data.isPrefixOf ((lowerStr wql).data.drop i) = true
      ∧ ∀ j, j < i → " from".data.isPrefixOf ((lowerStr wql).data.drop j) = false)
  ∧ ∀ p0 ps,
      ((splitCommaC ((wql.data.take i).drop 7)).map trimChars).map
          (fun cs => String.mk cs) = p0 :: ps →
      (p0 = "*" → data_query env wql = .ok [(env wql).map RVal.elem])
      ∧ (p0 ≠ "*" → data_query env wql =
          (env wql).mapM (fun r => (p0 :: ps).mapM (fun p =>
            match getattrRow r (upperStr p) with
            | some v => Except.ok (RVal.attr v)
            | none => Except.error PyErr.attributeError))) := by
  refine ⟨subIdx_least _ _ _ h, ?_⟩
  intro p0 ps hcons
  constructor
  · intro hstar
    simp [data_query, h, hcons, hstar]
  · intro hstar
    simp [data_query, h, hcons, hstar]

/-- C5 witness: the docstring-style query
`select LASTNAME, FIRSTNAME from Lnl_Cardholder` against a one-row
oracle. -/
theorem c5_data_query_witness :
    data_query (fun _ => [[("LASTNAME", DVal.str "Lake"),
                           ("FIRSTNAME", DVal.str "Lisa")]])
        "select LASTNAME, FIRSTNAME from Lnl_Cardholder" =
      .ok [[RVal.attr (DVal.str "Lake"), RVal.attr (DVal.str "Lisa")]] := by
  have h := ((c5_data_query
    (fun _ => [[("LASTNAME", DVal.str "Lake"), ("FIRSTNAME", DVal.str "Lisa")]])
    "select LASTNAME, FIRSTNAME from Lnl_Cardholder" 26 (by rfl)).2
    "LASTNAME" ["FIRSTNAME"] (by rfl)).2 (by decide)
  exact h.trans rfl

/-- C8: in `open_door`, an empty panel-ID query result raises an
`x_wmi` error whose message names the *reader* argument, after issuing
only the panel query; a found panel with an empty reader query result
raises an `x_wmi` error whose message names the *panel* argument; and
`OpenDoor()` is invoked exactly when both lookups return rows. -/
theorem c8_open_door (env : String → List Row) (panel reader : String) :
    (data_query env (panelQueryStr panel) = .ok [] →
       open_door env panel reader =
         ([panelQueryStr panel],
          .error (.xWmi ("reader \"" ++ reader ++ "\" not found."))))
  ∧ (∀ v0 row rows,
       data_query env (panelQueryStr panel) = .ok ((v0 :: row) :: rows) →
       data_query env (readerQueryStr v0 reader) = .ok [] →
       open_door env panel reader =
         ([panelQueryStr panel, readerQueryStr v0 reader],
          .error (.xWmi ("panel \"" ++ panel ++ "\" not found."))))
  ∧ (∀ v0 row rows er rrow rrows,
       data_query env (panelQueryStr panel) = .ok ((v0 :: row) :: rows) →
       data_query env (readerQueryStr v0 reader) =
         .ok ((RVal.elem er :: rrow) :: rrows) →
       open_door env panel reader =
         ([panelQueryStr panel, readerQueryStr v0 reader],
          .ok (.opened er))) := by
  refine ⟨?_, ?_, ?_⟩
  · intro h1
    simp [open_door, h1]
  · intro v0 row rows h1 h2
    simp [open_door, h1, h2]
  · intro v0 row rows er rrow rrows h1 h2
    simp [open_door, h1, h2]

/-- C8 witness: with an oracle returning no rows, the raised message
names the reader, and only the panel query was issued. -/
theorem c8_open_door_witness :
    open_door (fun _ => []) "Quantum" "CK" =
      (["select ID from Lnl_Panel where NAME = \"Quantum\""],
       .error (.xWmi "reader \"CK\" not found.")) := by
  have h := (c8_open_door (fun _ => []) "Quantum" "CK").1 (by rfl)
  exact h.trans rfl

end Pyog
